import Mathlib

/-!
Verification of the wallet-provider integration pages (Privy, Para, Dynamic,
and the plain MetaMask page) against their specification.

The development shallowly embeds the repository's TypeScript into Lean:
pure computations become Lean functions, the React state updates become
explicit state-passing functions, fallible provider calls return `Except`,
and JavaScript bigints become `Nat`/`Int`.  Each definition is annotated
with the source location it embeds.  Behaviour of external SDKs (the Privy
provider transport, viem's wallet client) that the repository only calls is
modelled from the specification and marked as such.
-/

/-! ## Shared constants (PrivyExample.tsx lines 28-30, ParaExample.tsx lines 27-29) -/

/-- USDC token contract address on Base, `USDC_ADDRESS` in every page. -/
def USDC_ADDRESS : String := "0x833589fCD6eDb6E08f4c7C32D4f71b54bdA02913"

/-- Fixed per-recipient transfer amount, `TRANSFER_AMOUNT = 100_000n` (0.1 USDC). -/
def TRANSFER_AMOUNT : Nat := 100000

/-- Chain id of Base (`base.id` from viem/chains). -/
def baseChainId : Nat := 8453

/-! ## JavaScript string trimming

`String.prototype.trim` removes leading and trailing whitespace.  The pages
use it only to test whether a recipient entry is blank
(`r.trim().length > 0`). -/

/-- Whitespace characters recognised by JavaScript's `trim` (the ASCII ones;
the Unicode space classes are irrelevant to the recipient-entry test). -/
def jsWhitespace (c : Char) : Bool :=
  c = ' ' || c = '\t' || c = '\n' || c = '\r' || c = '\x0b' || c = '\x0c'

/-- Embedding of `s.trim()`: drop whitespace from both ends. -/
def jsTrim (s : String) : String :=
  String.mk (((s.data.dropWhile jsWhitespace).reverse.dropWhile jsWhitespace).reverse)

/-! ## Hexadecimal byte encoding

`Buffer.from(raw).toString('hex')` in PrivyExample.tsx line 88 renders each
byte as two lowercase hexadecimal digits. -/

/-- Lowercase hexadecimal digit for `d < 16`. -/
def hexDigitChar (d : Nat) : Char :=
  if d < 10 then Char.ofNat (48 + d) else Char.ofNat (87 + d)

/-- The two hex digits of one byte, high nibble first. -/
def byteToHexChars (b : Fin 256) : List Char :=
  [hexDigitChar (b.val / 16), hexDigitChar (b.val % 16)]

/-- Embedding of `Buffer.from(raw).toString('hex')`. -/
def bytesToHex (bs : List (Fin 256)) : String :=
  String.mk ((bs.map byteToHexChars).flatten)

/-- Value of one hexadecimal character, if it is one (both cases accepted). -/
def hexCharVal? (c : Char) : Option Nat :=
  if 48 ≤ c.toNat ∧ c.toNat ≤ 57 then some (c.toNat - 48)
  else if 97 ≤ c.toNat ∧ c.toNat ≤ 102 then some (c.toNat - 87)
  else if 65 ≤ c.toNat ∧ c.toNat ≤ 70 then some (c.toNat - 55)
  else none

/-- Decoder for a hex digit stream: reads the characters two at a time back
into bytes.  Used to state that the adapter's encoding is genuinely the
standard hexadecimal one (lossless). -/
def hexPairsDecode? : List Char → Option (List (Fin 256))
  | [] => some []
  | c1 :: c2 :: rest =>
    (hexCharVal? c1).bind fun h =>
    (hexCharVal? c2).bind fun l =>
    (hexPairsDecode? rest).bind fun bs =>
    if hb : h * 16 + l < 256 then some (⟨h * 16 + l, hb⟩ :: bs) else none
  | _ => none

/-! ## Messages and errors -/

/-- The shapes of viem `SignableMessage` handled by the adapters'
`signMessage({ message })` callbacks: a plain string, a `\x7b raw: '0x..' \x7d`
wrapper holding a hex string, or a wrapper holding raw bytes. -/
inductive SignableMessage where
  | str (s : String)
  | rawStr (s : String)
  | rawBytes (bs : List (Fin 256))

/-- A thrown JavaScript `Error`, identified by its message. -/
structure JsError where
  message : String
deriving DecidableEq

/-- Error taxonomy of the specification for adapter signing calls. -/
inductive AdapterError where
  | sessionExpired
  | signingRejected
deriving DecidableEq

namespace PrivyExample

/-- Embedding of the message normalisation inside `signMessage` of
PrivyExample.tsx lines 80-91: a plain string is forwarded as is, a string
`raw` field as is, and raw bytes as `0x` followed by their hex digits
(the final `String(message)` fallback is unreachable for the
`SignableMessage` shapes). -/
def messageToSign : SignableMessage → String
  | .str s => s
  | .rawStr s => s
  | .rawBytes bs => "0x" ++ bytesToHex bs

/-- The `personal_sign` request the adapter submits to the provider
(PrivyExample.tsx lines 93-96): the normalised message together with the
address captured at adapter creation. -/
structure PersonalSignRequest where
  message : String
  address : String
deriving DecidableEq

/-- Embedding of the `signMessage` callback up to the provider call: it
forwards the normalised message and the captured address. -/
def signMessageRequest (address : String) (msg : SignableMessage) : PersonalSignRequest :=
  { message := messageToSign msg, address := address }

/-- A provider session as seen through its signing transport: the address it
is authenticated for, and its (opaque) signing function. -/
structure ProviderSession where
  address : String
  sigOf : String → String

/-- Modelled from the spec: the Privy provider's `personal_sign` transport is
external to this repository; per the specification it signs only for the
session's authenticated address and reports a stale session (`SessionExpired`)
when asked to sign for any other address. -/
def personalSign (session : ProviderSession) (message addr : String) :
    Except AdapterError String :=
  if addr = session.address then .ok (session.sigOf message) else .error .sessionExpired

/-- Modelled from the spec: the Privy provider's `eth_signTypedData_v4`
transport, with the same session-address check as `personal_sign`. -/
def ethSignTypedDataV4 (session : ProviderSession) (addr serialized : String) :
    Except AdapterError String :=
  if addr = session.address then .ok (session.sigOf serialized) else .error .sessionExpired

/-- The `signMessage` callback (PrivyExample.tsx lines 80-98) run against a
provider session: normalise, then submit `personal_sign` with the captured
address. -/
def signMessageVia (session : ProviderSession) (capturedAddress : String)
    (msg : SignableMessage) : Except AdapterError String :=
  personalSign session (messageToSign msg) capturedAddress

/-- Embedding of the `signTransaction` callback (PrivyExample.tsx lines
114-116): it unconditionally throws. -/
def signTransaction {α : Type} (_tx : α) : Except JsError String :=
  .error ⟨"signTransaction not supported - use MEE for transactions"⟩

end PrivyExample

namespace DynamicExample

/-- Embedding of the `signTransaction` callback of the Dynamic adapter
(DynamicExample, part_003 lines 118-120): identical unconditional throw. -/
def signTransaction {α : Type} (_tx : α) : Except JsError String :=
  .error ⟨"signTransaction not supported - use MEE for transactions"⟩

/-- Modelled from the spec: the Dynamic adapter's `signMessage` (part_003
lines 100-106) forwards the message unchanged to viem's wallet client, whose
implementation is external to this repository; per the specification that
transport hex-encodes raw byte messages with a leading `0x` (and forwards
strings as is) before reaching the provider. -/
def walletClientMessage : SignableMessage → String
  | .str s => s
  | .rawStr s => s
  | .rawBytes bs => "0x" ++ bytesToHex bs

end DynamicExample

/-! ## MEE initialisation guard

The three provider pages hold the execution-client and orchestrating-account
handles in component state and run the same `initMee` effect
(PrivyExample.tsx lines 56-145, ParaExample.tsx lines 55-96, part_003 lines
64-150).  The external factories `toMultichainNexusAccount` and
`createMeeClient` return opaque handles; the embedding represents each handle
by the signer address it was created from. -/

/-- Opaque orchestrating-account handle (`toMultichainNexusAccount` result). -/
structure OrchestratorHandle where
  signerAddress : String
deriving DecidableEq

/-- Opaque execution-client handle (`createMeeClient` result). -/
structure MeeClientHandle where
  accountAddress : String
deriving DecidableEq

/-- The two pieces of MEE component state (`meeClient`, `orchestrator`). -/
structure MeeInitState where
  meeClient : Option MeeClientHandle
  orchestrator : Option OrchestratorHandle
deriving DecidableEq

/-- One run of the `initMee` effect.  Guards in source order: return if no
wallet address (`if (!embeddedWallet?.address) return`), return if already
set up (`if (meeClient) return`); otherwise create the orchestrating account
and the client.  The second component counts the handles created during the
run (account plus client on the creating path, none otherwise). -/
def initMee (walletAddress : Option String) (s : MeeInitState) : MeeInitState × Nat :=
  match walletAddress with
  | none => (s, 0)
  | some addr =>
    if s.meeClient.isSome then (s, 0)
    else ({ meeClient := some ⟨addr⟩, orchestrator := some ⟨addr⟩ }, 2)

/-! ## Balance polling

The three provider pages run the same `fetchBalance` effect on a 10-second
interval (PrivyExample.tsx lines 148-181, ParaExample.tsx lines 99-132,
part_003 lines 153-186). -/

/-- The JSON-RPC reply body as consumed by `fetchBalance`: only its
(possibly absent) `result` field matters. -/
structure RpcResponse where
  result : Option String
deriving DecidableEq

/-- Embedding of `BigInt(s)` for the `0x`-prefixed hexadecimal strings an
`eth_call` returns; `none` when the string is not of that shape (in which
case `BigInt` throws and the surrounding catch runs). -/
def parseBigIntHex? (s : String) : Option Nat :=
  match s.data with
  | '0' :: 'x' :: rest =>
    if rest.isEmpty then none
    else rest.foldl (fun acc c => match acc, hexCharVal? c with
      | some a, some v => some (a * 16 + v)
      | _, _ => none) (some 0)
  | _ => none

/-- One balance fetch against a previous balance.  `resp = none` is a failed
fetch (the catch block at PrivyExample.tsx lines 173-175 only logs); a reply
without a truthy `result` skips the update (`if (data.result)` line 170);
otherwise the parsed value replaces the balance (a parse failure throws into
the same catch). -/
def fetchBalanceUpdate (resp : Option RpcResponse) (balance : Option Nat) : Option Nat :=
  match resp with
  | none => balance
  | some d =>
    match d.result with
    | none => balance
    | some s =>
      if s = "" then balance
      else match parseBigIntHex? s with
        | some v => some v
        | none => balance

/-- One polling tick: the interval fires `fetchBalance` exactly once, and the
catch block does not retry, so a tick performs exactly one fetch attempt
(second component) whatever the outcome. -/
def balanceTick (resp : Option RpcResponse) (balance : Option Nat) : Option Nat × Nat :=
  (fetchBalanceUpdate resp balance, 1)

/-! ## Transfer batch and fusion quote request

`executeTransfers` is identical in PrivyExample.tsx lines 224-304 and
ParaExample.tsx lines 154-227 in every respect the quote request depends on:
filter blank recipients, build one transfer instruction per remaining
recipient, and issue exactly one `getFusionQuote` call whose trigger amount
is `BigInt(transfers.length) * TRANSFER_AMOUNT`. -/

/-- One composable transfer instruction (`orchestrator.buildComposable`
argument data, PrivyExample.tsx lines 251-260; `toAddr` embeds the `to`
field, whose name is reserved in Lean). -/
structure ComposableInstruction where
  chainId : Nat
  toAddr : String
  functionName : String
  argRecipient : String
  argAmount : Nat
deriving DecidableEq

/-- The funding trigger of a fusion quote request. -/
structure Trigger where
  chainId : Nat
  tokenAddress : String
  amount : Nat
deriving DecidableEq

/-- The `getFusionQuote` request payload (PrivyExample.tsx lines 269-287). -/
structure FusionQuoteRequest where
  instructions : List ComposableInstruction
  trigger : Trigger
  feeTokenAddress : String
  feeTokenChainId : Nat
  simulate : Bool
deriving DecidableEq

/-- Embedding of `orchestrator.buildComposable` on the page's fixed transfer
descriptor: a USDC `transfer` of `TRANSFER_AMOUNT` to the recipient on Base. -/
def buildComposable (recipient : String) : ComposableInstruction :=
  { chainId := baseChainId
    toAddr := USDC_ADDRESS
    functionName := "transfer"
    argRecipient := recipient
    argAmount := TRANSFER_AMOUNT }

/-- The fusion quote requests issued by one `executeTransfers` run.  The
guards mirror the source: bail out when the MEE state is not set up or no
wallet is connected (status error, no request), bail out when every
recipient entry is blank; otherwise issue exactly one request over the
instruction list. -/
def executeTransfersQuoteRequests (s : MeeInitState) (walletConnected : Bool)
    (recipients : List String) : List FusionQuoteRequest :=
  if s.orchestrator.isNone || s.meeClient.isNone || !walletConnected then []
  else
    let validRecipients := recipients.filter (fun r => decide ((jsTrim r).length > 0))
    if validRecipients.length = 0 then []
    else
      let transfers := validRecipients.map buildComposable
      [{ instructions := transfers
         trigger := { chainId := baseChainId, tokenAddress := USDC_ADDRESS
                      amount := transfers.length * TRANSFER_AMOUNT }
         feeTokenAddress := USDC_ADDRESS
         feeTokenChainId := baseChainId
         simulate := true }]

/-! ## Recipient list operations

All four pages keep `recipients` in state starting at `['']` and expose the
same three handlers (PrivyExample.tsx lines 204-215, ParaExample.tsx lines
134-145, part_002 lines 203-215, part_003 lines 188-199). -/

/-- `useState<string[]>([''])`: the list starts with one empty entry. -/
def initialRecipients : List String := [""]

/-- `addRecipient`: append one empty entry. -/
def addRecipient (rs : List String) : List String := rs ++ [""]

/-- `handleRecipientChange`: overwrite the entry at `index` (the UI only
calls it with an index of a rendered row, hence in range). -/
def handleRecipientChange (index : Nat) (value : String) (rs : List String) : List String :=
  rs.set index value

/-- `removeRecipient`: drop the entry at `index`, refused when only one
entry remains (`if (recipients.length > 1)` with
`recipients.filter((_, i) => i !== index)`). -/
def removeRecipient (index : Nat) (rs : List String) : List String :=
  if rs.length > 1 then ((rs.enum.filter (fun p => p.1 ≠ index)).map (fun p => p.2))
  else rs

/-- The recipient-list events a page can fire. -/
inductive RecipientOp where
  | add
  | change (index : Nat) (value : String)
  | remove (index : Nat)

/-- Apply one recipient-list event. -/
def applyRecipientOp (rs : List String) : RecipientOp → List String
  | .add => addRecipient rs
  | .change i v => handleRecipientChange i v rs
  | .remove i => removeRecipient i rs

/-! ## Page rendering on missing configuration

Each provider page's exported component reads its required environment key
and branches before mounting the provider SDK tree (PrivyExample.tsx lines
553-587, ParaExample.tsx lines 385-419, part_003 lines 493-527). -/

/-- What a provider page renders at top level: the static configuration
error panel (named by the missing key), or the provider SDK UI tree. -/
inductive PageView where
  | configError (envVarName : String)
  | providerUI
deriving DecidableEq

/-- JavaScript truthiness of an environment string: absent and empty are
falsy. -/
def jsTruthy (v : Option String) : Bool :=
  match v with
  | none => false
  | some s => !s.isEmpty

namespace PrivyExample

/-- Embedding of the `PrivyExample` component's top-level branch:
`if (!appId)` renders the configuration panel, otherwise the
`PrivyProvider` tree. -/
def render (appId : Option String) : PageView :=
  if jsTruthy appId then .providerUI else .configError "VITE_PRIVY_APP_ID"

end PrivyExample

namespace ParaExample

/-- Embedding of the `ParaExample` component's top-level branch:
`if (!apiKey)` renders the configuration panel, otherwise the
`ParaProvider` tree. -/
def render (apiKey : Option String) : PageView :=
  if jsTruthy apiKey then .providerUI else .configError "VITE_PARA_API_KEY"

end ParaExample

namespace DynamicExample

/-- Embedding of the `DynamicExample` component's top-level branch:
`if (!environmentId)` renders the configuration panel, otherwise the
`DynamicContextProvider` tree. -/
def render (environmentId : Option String) : PageView :=
  if jsTruthy environmentId then .providerUI else .configError "VITE_DYNAMIC_ENVIRONMENT_ID"

end DynamicExample

/-! ## Error surfacing in the status text

Each catch block is embedded as its effect on the visible `status` state,
given the caught error's message.  A handler that only writes to the console
leaves the status unchanged. -/

namespace PrivyExample

/-- Catch block of `initMee` (PrivyExample.tsx lines 139-141):
`console.error` only, no `setStatus`. -/
def initMeeCatch (_errMessage : String) (status : Option String) : Option String :=
  status

/-- Catch block of `fetchBalance` (PrivyExample.tsx lines 173-175):
`console.error` only, no `setStatus`. -/
def fetchBalanceCatch (_errMessage : String) (status : Option String) : Option String :=
  status

/-- Catch block of `handleSendCode` (lines 189-191): sets the status text. -/
def handleSendCodeCatch (errMessage : String) (_status : Option String) : Option String :=
  some ("Error: " ++ errMessage)

/-- Catch block of `handleLogin` (lines 199-201): sets the status text. -/
def handleLoginCatch (errMessage : String) (_status : Option String) : Option String :=
  some ("Error: " ++ errMessage)

/-- Catch block of `executeTransfers` (lines 300-303): sets the status text. -/
def executeTransfersCatch (errMessage : String) (_status : Option String) : Option String :=
  some ("Error: " ++ errMessage)

end PrivyExample

namespace ParaExample

/-- Catch block of `initMee` (ParaExample.tsx lines 89-92): logs and sets
the status text. -/
def initMeeCatch (errMessage : String) (_status : Option String) : Option String :=
  some ("Error initializing MEE: " ++ errMessage)

end ParaExample

namespace DynamicExample

/-- Catch block of `initMee` (part_003 lines 143-146): logs and sets the
status text. -/
def initMeeCatch (errMessage : String) (_status : Option String) : Option String :=
  some ("Error initializing MEE: " ++ errMessage)

end DynamicExample

/-! ## Decimal rendering of arbitrary-precision integers

JavaScript's `value.toString()` on a bigint yields its base-10 numeral,
with a leading minus sign for negative values. -/

/-- Base-10 numeral of a natural number (digits via `Nat.digits`, most
significant first). -/
def natToDec (n : Nat) : String :=
  if n = 0 then "0" else String.mk (((Nat.digits 10 n).map Nat.digitChar).reverse)

/-- Base-10 numeral of an integer, embedding bigint `toString()`. -/
def intToDec : Int → String
  | .ofNat n => natToDec n
  | .negSucc n => String.mk ('-' :: (natToDec (n + 1)).data)

/-- Numeric value of a decimal digit character. -/
def decDigitVal (c : Char) : Nat := c.toNat - 48

/-- Parse a string of decimal digits back into a natural number.  Used to
state that the decimal rendering loses no precision. -/
def parseNatDec (s : String) : Nat :=
  s.data.foldl (fun a c => a * 10 + decDigitVal c) 0

/-- Parse an optionally minus-signed decimal numeral back into an integer. -/
def parseIntDec (s : String) : Int :=
  match s.data with
  | '-' :: rest => -(parseNatDec (String.mk rest) : Int)
  | _ => (parseNatDec s : Int)

/-! ## Typed-data payloads and their serialization

`signTypedData` in PrivyExample.tsx lines 101-111 serializes the structured
payload with `JSON.stringify(typedData, replacer)` where
`replacer = (_key, value) => typeof value === 'bigint' ? value.toString() : value`.
The payload is modelled as a JSON-like tree that may additionally hold
bigint leaves. -/

mutual
/-- A JavaScript value as fed to `JSON.stringify`: the JSON shapes plus
bigint leaves (numbers restricted to integers, which is all the typed-data
payloads of this application contain). -/
inductive JsValue where
  | null : JsValue
  | bool (b : Bool) : JsValue
  | num (n : Int) : JsValue
  | str (s : String) : JsValue
  | big (i : Int) : JsValue
  | arr (elems : JsArray) : JsValue
  | obj (fields : JsFields) : JsValue

/-- Array of JavaScript values. -/
inductive JsArray where
  | nil : JsArray
  | cons (hd : JsValue) (tl : JsArray) : JsArray

/-- Ordered fields of a JavaScript object. -/
inductive JsFields where
  | nil : JsFields
  | cons (key : String) (val : JsValue) (tl : JsFields) : JsFields
end

/-- Escaping of one character inside a JSON string literal (the escapes
`JSON.stringify` emits for the characters that can occur here). -/
def escapeChar (c : Char) : String :=
  if c = '"' then "\\\""
  else if c = '\\' then "\\\\"
  else if c = '\n' then "\\n"
  else if c = '\r' then "\\r"
  else if c = '\t' then "\\t"
  else String.mk [c]

/-- A JSON string literal: escaped content between double quotes. -/
def quoteJson (s : String) : String :=
  "\"" ++ String.join (s.data.map escapeChar) ++ "\""

mutual
/-- Embedding of `JSON.stringify(typedData, replacer)` with the bigint
replacer of PrivyExample.tsx lines 103-104 applied at every node: a bigint
leaf is rendered as the JSON string of its base-10 numeral; everything else
is serialized as plain JSON. -/
def stringifyR : JsValue → String
  | .null => "null"
  | .bool b => if b then "true" else "false"
  | .num n => intToDec n
  | .str s => quoteJson s
  | .big i => quoteJson (intToDec i)
  | .arr xs => "[" ++ String.intercalate "," (stringifyRArr xs) ++ "]"
  | .obj fs => "\x7b" ++ String.intercalate "," (stringifyRFields fs) ++ "\x7d"

/-- Serialized elements of an array under the bigint replacer. -/
def stringifyRArr : JsArray → List String
  | .nil => []
  | .cons v tl => stringifyR v :: stringifyRArr tl

/-- Serialized `"key":value` members of an object under the bigint replacer. -/
def stringifyRFields : JsFields → List String
  | .nil => []
  | .cons k v tl => (quoteJson k ++ ":" ++ stringifyR v) :: stringifyRFields tl
end

mutual
/-- Plain `JSON.stringify` without a replacer: it has no rendering for a
bigint value (`JSON.stringify` throws a TypeError there), hence `none` on
any payload still containing one. -/
def stringifyPlain : JsValue → Option String
  | .null => some "null"
  | .bool b => some (if b then "true" else "false")
  | .num n => some (intToDec n)
  | .str s => some (quoteJson s)
  | .big _ => none
  | .arr xs => (stringifyPlainArr xs).map (fun ss => "[" ++ String.intercalate "," ss ++ "]")
  | .obj fs => (stringifyPlainFields fs).map
      (fun ss => "\x7b" ++ String.intercalate "," ss ++ "\x7d")

/-- Plain serialization of the elements of an array. -/
def stringifyPlainArr : JsArray → Option (List String)
  | .nil => some []
  | .cons v tl =>
    match stringifyPlain v, stringifyPlainArr tl with
    | some s, some ss => some (s :: ss)
    | _, _ => none

/-- Plain serialization of the members of an object. -/
def stringifyPlainFields : JsFields → Option (List String)
  | .nil => some []
  | .cons k v tl =>
    match stringifyPlain v, stringifyPlainFields tl with
    | some s, some ss => some ((quoteJson k ++ ":" ++ s) :: ss)
    | _, _ => none
end

mutual
/-- The substitution the specification describes: replace every bigint
field of the payload by the JSON string of its base-10 numeral, leaving
everything else in place. -/
def substBig : JsValue → JsValue
  | .big i => .str (intToDec i)
  | .arr xs => .arr (substBigArr xs)
  | .obj fs => .obj (substBigFields fs)
  | v => v

/-- Substitution over the elements of an array. -/
def substBigArr : JsArray → JsArray
  | .nil => .nil
  | .cons v tl => .cons (substBig v) (substBigArr tl)

/-- Substitution over the members of an object. -/
def substBigFields : JsFields → JsFields
  | .nil => .nil
  | .cons k v tl => .cons k (substBig v) (substBigFields tl)
end

mutual
/-- Whether a payload contains at least one bigint field. -/
def containsBig : JsValue → Bool
  | .big _ => true
  | .arr xs => containsBigArr xs
  | .obj fs => containsBigFields fs
  | _ => false

/-- Whether an array contains a bigint field. -/
def containsBigArr : JsArray → Bool
  | .nil => false
  | .cons v tl => containsBig v || containsBigArr tl

/-- Whether an object contains a bigint field. -/
def containsBigFields : JsFields → Bool
  | .nil => false
  | .cons _ v tl => containsBig v || containsBigFields tl
end

namespace PrivyExample

/-- The `signTypedData` callback (PrivyExample.tsx lines 101-111) run
against a provider session: serialize the payload with the bigint replacer,
then submit `eth_signTypedData_v4` with the captured address. -/
def signTypedDataVia (session : ProviderSession) (capturedAddress : String)
    (payload : JsValue) : Except AdapterError String :=
  ethSignTypedDataV4 session capturedAddress (stringifyR payload)

end PrivyExample

/-! # Theorems -/

/-- C1: for every input, the adapter's `signTransaction` callback fails with
the unsupported-operation error and never returns a signature, in both the
Privy and the Dynamic adapter. -/
theorem c1_signTransaction_always_unsupported :
    ∀ (α : Type) (tx : α),
      PrivyExample.signTransaction tx =
        Except.error ⟨"signTransaction not supported - use MEE for transactions"⟩ ∧
      DynamicExample.signTransaction tx =
        Except.error ⟨"signTransaction not supported - use MEE for transactions"⟩ ∧
      (∀ sig : String, PrivyExample.signTransaction tx ≠ Except.ok sig) ∧
      (∀ sig : String, DynamicExample.signTransaction tx ≠ Except.ok sig) := by
  intro α tx
  refine ⟨rfl, rfl, ?_, ?_⟩ <;> intro sig h <;> exact Except.noConfusion h

/-- C6: with the required environment key absent, each provider page renders
the configuration-error panel rather than the provider SDK UI tree. -/
theorem c6_missing_env_key_renders_config_error :
    PrivyExample.render none = PageView.configError "VITE_PRIVY_APP_ID" ∧
    ParaExample.render none = PageView.configError "VITE_PARA_API_KEY" ∧
    DynamicExample.render none = PageView.configError "VITE_DYNAMIC_ENVIRONMENT_ID" :=
  ⟨rfl, rfl, rfl⟩

/-- C7: once the execution-client state is non-null, a run of the `initMee`
effect leaves the state unchanged and creates no new account or client
handle. -/
theorem c7_initMee_guarded_against_reinit
    (walletAddress : Option String) (s : MeeInitState) (c : MeeClientHandle)
    (h : s.meeClient = some c) :
    initMee walletAddress s = (s, 0) := by
  cases walletAddress with
  | none => rfl
  | some a => simp [initMee, h]

/-- Witness for C7 at a concrete already-set-up state. -/
theorem c7_initMee_guarded_against_reinit_witness :
    ({ meeClient := some ⟨"0xA"⟩, orchestrator := some ⟨"0xA"⟩ } : MeeInitState).meeClient
        = some ⟨"0xA"⟩ ∧
    initMee (some "0xA") { meeClient := some ⟨"0xA"⟩, orchestrator := some ⟨"0xA"⟩ } =
      ({ meeClient := some ⟨"0xA"⟩, orchestrator := some ⟨"0xA"⟩ }, 0) :=
  ⟨rfl, c7_initMee_guarded_against_reinit (some "0xA") _ ⟨"0xA"⟩ rfl⟩

/-- C8 counterexample: the catch block of the Privy page's `initMee` effect
only logs; after an initialization error with no prior status, the visible
status is still absent, so this error path produces no visible status text. -/
theorem c8_counterexample_init_error_not_surfaced :
    PrivyExample.initMeeCatch "Failed to fetch" none = none := rfl

/-- C8 (amended): the user-initiated operations of the Privy page surface
errors as status text, as do the Para and Dynamic initialization effects;
but the Privy page's `initMee` and all pages' `fetchBalance` catch blocks
only log and leave the status unchanged. -/
theorem c8_amended_error_surfacing :
    (∀ m s, PrivyExample.handleSendCodeCatch m s = some ("Error: " ++ m)) ∧
    (∀ m s, PrivyExample.handleLoginCatch m s = some ("Error: " ++ m)) ∧
    (∀ m s, PrivyExample.executeTransfersCatch m s = some ("Error: " ++ m)) ∧
    (∀ m s, ParaExample.initMeeCatch m s = some ("Error initializing MEE: " ++ m)) ∧
    (∀ m s, DynamicExample.initMeeCatch m s = some ("Error initializing MEE: " ++ m)) ∧
    (∀ m s, PrivyExample.initMeeCatch m s = s) ∧
    (∀ m s, PrivyExample.fetchBalanceCatch m s = s) :=
  ⟨fun _ _ => rfl, fun _ _ => rfl, fun _ _ => rfl, fun _ _ => rfl, fun _ _ => rfl,
   fun _ _ => rfl, fun _ _ => rfl⟩

/-- C9: a polling tick whose fetch fails or whose reply lacks a `result`
field leaves the balance unchanged and performs exactly one fetch attempt
(no immediate retry; the next attempt comes from the next interval tick). -/
theorem c9_failed_poll_keeps_last_balance
    (resp : Option RpcResponse) (balance : Option Nat)
    (h : resp = none ∨ resp = some ⟨none⟩) :
    balanceTick resp balance = (balance, 1) := by
  rcases h with rfl | rfl <;> rfl

/-- Witness for C9 at a failed fetch against a known balance. -/
theorem c9_failed_poll_keeps_last_balance_witness :
    ((none : Option RpcResponse) = none ∨ (none : Option RpcResponse) = some ⟨none⟩) ∧
    balanceTick none (some 123456) = (some 123456, 1) :=
  ⟨Or.inl rfl, c9_failed_poll_keeps_last_balance none (some 123456) (Or.inl rfl)⟩

/-- Indices below the enumeration start are never dropped by the
`removeRecipient` filter. -/
theorem filter_enumFrom_length_of_lt (rs : List String) (k i : Nat) (h : i < k) :
    ((List.enumFrom k rs).filter (fun p => p.1 ≠ i)).length = rs.length := by
  induction rs generalizing k with
  | nil => rfl
  | cons x t ih =>
    rw [List.enumFrom_cons, List.filter_cons,
      if_pos (decide_eq_true (show k ≠ i by omega)),
      List.length_cons, ih (k + 1) (by omega)]
    rfl

/-- The `removeRecipient` filter drops at most one entry. -/
theorem filter_enumFrom_length_ge (rs : List String) (k i : Nat) :
    rs.length - 1 ≤ ((List.enumFrom k rs).filter (fun p => p.1 ≠ i)).length := by
  induction rs generalizing k with
  | nil => simp
  | cons x t ih =>
    rw [List.enumFrom_cons, List.filter_cons]
    by_cases hk : k = i
    · subst hk
      rw [if_neg (by simp)]
      rw [filter_enumFrom_length_of_lt t (k + 1) k (by omega)]
      simp
    · rw [if_pos (decide_eq_true hk)]
      have := ih (k + 1)
      rw [List.length_cons, List.length_cons]
      omega

/-- Each recipient-list handler preserves non-emptiness. -/
theorem applyRecipientOp_length (rs : List String) (op : RecipientOp)
    (h : 1 ≤ rs.length) : 1 ≤ (applyRecipientOp rs op).length := by
  cases op with
  | add => simp [applyRecipientOp, addRecipient]
  | change i v => simpa [applyRecipientOp, handleRecipientChange] using h
  | remove i =>
    simp only [applyRecipientOp, removeRecipient]
    split
    · rename_i hlen
      have := filter_enumFrom_length_ge rs 0 i
      simp only [List.length_map, List.enum]
      omega
    · exact h

/-- Non-emptiness is preserved by any sequence of recipient-list events. -/
theorem foldl_recipientOps_length (ops : List RecipientOp) :
    ∀ rs : List String, 1 ≤ rs.length →
      1 ≤ (ops.foldl applyRecipientOp rs).length := by
  induction ops with
  | nil => intro rs h; exact h
  | cons op tl ih =>
    intro rs h
    exact ih (applyRecipientOp rs op) (applyRecipientOp_length rs op h)

/-- C10: starting from the initial one-entry list, no sequence of
`addRecipient`, `handleRecipientChange`, `removeRecipient` events can make
the recipients list empty. -/
theorem c10_recipients_never_empty (ops : List RecipientOp) :
    1 ≤ (ops.foldl applyRecipientOp initialRecipients).length :=
  foldl_recipientOps_length ops initialRecipients (by simp [initialRecipients])

/-- C2: when the MEE state is set up, a wallet is connected, and at least
one recipient entry is non-blank, `executeTransfers` issues exactly one
fusion quote request, with one transfer instruction per non-blank recipient
and a funding-trigger amount of that count times the fixed per-recipient
amount. -/
theorem c2_executeTransfers_single_quote
    (s : MeeInitState) (o : OrchestratorHandle) (c : MeeClientHandle)
    (recipients : List String)
    (ho : s.orchestrator = some o) (hc : s.meeClient = some c)
    (hn : 1 ≤ (recipients.filter (fun r => decide ((jsTrim r).length > 0))).length) :
    ∃ q : FusionQuoteRequest,
      executeTransfersQuoteRequests s true recipients = [q] ∧
      q.instructions.length
        = (recipients.filter (fun r => decide ((jsTrim r).length > 0))).length ∧
      q.trigger.amount
        = (recipients.filter (fun r => decide ((jsTrim r).length > 0))).length
            * TRANSFER_AMOUNT := by
  have hval : ¬ (recipients.filter (fun r => decide ((jsTrim r).length > 0))).length = 0 := by
    omega
  have heq : executeTransfersQuoteRequests s true recipients =
      [{ instructions :=
           (recipients.filter (fun r => decide ((jsTrim r).length > 0))).map buildComposable
         trigger :=
           { chainId := baseChainId, tokenAddress := USDC_ADDRESS
             amount := ((recipients.filter
                 (fun r => decide ((jsTrim r).length > 0))).map buildComposable).length
               * TRANSFER_AMOUNT }
         feeTokenAddress := USDC_ADDRESS
         feeTokenChainId := baseChainId
         simulate := true }] := by
    simp [executeTransfersQuoteRequests, ho, hc, hval]
  exact ⟨_, heq, by simp [List.length_map], by simp [List.length_map]⟩

/-- Witness for C2: two valid recipients yield one request with two
instructions and trigger amount twice the per-recipient amount. -/
theorem c2_executeTransfers_single_quote_witness :
    (({ meeClient := some ⟨"0xC"⟩, orchestrator := some ⟨"0xO"⟩ } : MeeInitState).orchestrator
        = some ⟨"0xO"⟩) ∧
    (({ meeClient := some ⟨"0xC"⟩, orchestrator := some ⟨"0xO"⟩ } : MeeInitState).meeClient
        = some ⟨"0xC"⟩) ∧
    (1 ≤ ((["0xabc1", "0xabc2"] : List String).filter
        (fun r => decide ((jsTrim r).length > 0))).length) ∧
    (∃ q : FusionQuoteRequest,
      executeTransfersQuoteRequests
          { meeClient := some ⟨"0xC"⟩, orchestrator := some ⟨"0xO"⟩ } true
          ["0xabc1", "0xabc2"] = [q] ∧
      q.instructions.length
        = ((["0xabc1", "0xabc2"] : List String).filter
            (fun r => decide ((jsTrim r).length > 0))).length ∧
      q.trigger.amount
        = ((["0xabc1", "0xabc2"] : List String).filter
            (fun r => decide ((jsTrim r).length > 0))).length * TRANSFER_AMOUNT) :=
  ⟨rfl, rfl, by decide,
    c2_executeTransfers_single_quote _ ⟨"0xO"⟩ ⟨"0xC"⟩ _ rfl rfl (by decide)⟩

/-- C3: when the provider session's authenticated address differs from the
address the adapter captured at creation, both signing callbacks fail with
`SessionExpired` and return no signature. -/
theorem c3_stale_session_signing_fails
    (session : PrivyExample.ProviderSession) (capturedAddress : String)
    (h : session.address ≠ capturedAddress) :
    (∀ msg : SignableMessage,
      PrivyExample.signMessageVia session capturedAddress msg =
        Except.error AdapterError.sessionExpired) ∧
    (∀ payload : JsValue,
      PrivyExample.signTypedDataVia session capturedAddress payload =
        Except.error AdapterError.sessionExpired) := by
  constructor
  · intro msg
    unfold PrivyExample.signMessageVia PrivyExample.personalSign
    rw [if_neg (fun hh => h hh.symm)]
  · intro payload
    unfold PrivyExample.signTypedDataVia PrivyExample.ethSignTypedDataV4
    rw [if_neg (fun hh => h hh.symm)]

/-- Witness for C3 at a concrete mismatched pair of addresses. -/
theorem c3_stale_session_signing_fails_witness :
    (PrivyExample.ProviderSession.address ⟨"0xB", fun _ => "0xsig"⟩ ≠ "0xA") ∧
    PrivyExample.signMessageVia ⟨"0xB", fun _ => "0xsig"⟩ "0xA" (.str "hello") =
      Except.error AdapterError.sessionExpired :=
  ⟨by decide,
    (c3_stale_session_signing_fails ⟨"0xB", fun _ => "0xsig"⟩ "0xA" (by decide)).1
      (.str "hello")⟩

/-- Each hex digit emitted by the encoder decodes back to its value. -/
theorem hexCharVal_hexDigitChar : ∀ d : Fin 16, hexCharVal? (hexDigitChar d.val) = some d.val := by
  decide

/-- Decoding inverts the byte-to-hex encoding: the emitted digit stream
determines the original bytes. -/
theorem hexPairsDecode_bytesToHex (bs : List (Fin 256)) :
    hexPairsDecode? ((bs.map byteToHexChars).flatten) = some bs := by
  induction bs with
  | nil => rfl
  | cons b tl ih =>
    have hlt := b.isLt
    have h1 : b.val / 16 < 16 := by omega
    have h2 : b.val % 16 < 16 := by omega
    have e1 : hexCharVal? (hexDigitChar (b.val / 16)) = some (b.val / 16) :=
      hexCharVal_hexDigitChar ⟨b.val / 16, h1⟩
    have e2 : hexCharVal? (hexDigitChar (b.val % 16)) = some (b.val % 16) :=
      hexCharVal_hexDigitChar ⟨b.val % 16, h2⟩
    have hb : b.val / 16 * 16 + b.val % 16 = b.val := by omega
    show hexPairsDecode?
      (hexDigitChar (b.val / 16) :: hexDigitChar (b.val % 16)
        :: (tl.map byteToHexChars).flatten) = some (b :: tl)
    rw [hexPairsDecode?, e1, Option.some_bind, e2, Option.some_bind, ih, Option.some_bind,
      dif_pos (by omega)]
    exact congrArg some (List.cons_eq_cons.mpr ⟨Fin.ext hb, rfl⟩)

/-- C5: for every raw-bytes message, the Privy adapter's `signMessage`
forwards to the provider transport exactly the `0x`-prefixed hexadecimal
encoding of the bytes (the digit stream after `0x` decodes back to the
bytes), and the Dynamic adapter's wallet-client transport forwards the same
encoding. -/
theorem c5_raw_bytes_forwarded_hex (bs : List (Fin 256)) (addr : String) :
    ((PrivyExample.signMessageRequest addr (.rawBytes bs)).message).data.take 2
        = ['0', 'x'] ∧
    hexPairsDecode?
        (((PrivyExample.signMessageRequest addr (.rawBytes bs)).message).data.drop 2)
      = some bs ∧
    DynamicExample.walletClientMessage (.rawBytes bs)
      = (PrivyExample.signMessageRequest addr (.rawBytes bs)).message := by
  have hdata : ((PrivyExample.signMessageRequest addr (.rawBytes bs)).message).data
      = '0' :: 'x' :: (bs.map byteToHexChars).flatten := by
    show (("0x" ++ bytesToHex bs).data) = _
    rw [String.data_append]
    rfl
  refine ⟨?_, ?_, rfl⟩
  · rw [hdata]; rfl
  · rw [hdata]
    exact hexPairsDecode_bytesToHex bs

/-- Each decimal digit character parses back to its value. -/
theorem decDigitVal_digitChar : ∀ d : Fin 10, decDigitVal (Nat.digitChar d.val) = d.val := by
  decide

/-- Folding the parser over a rendered digit list accumulates the numeral's
value on top of the accumulator. -/
theorem foldl_digits_parse (l : List Nat) (hl : ∀ d ∈ l, d < 10) (acc : Nat) :
    ((l.map Nat.digitChar).reverse).foldl (fun a c => a * 10 + decDigitVal c) acc
      = acc * 10 ^ l.length + Nat.ofDigits 10 l := by
  induction l generalizing acc with
  | nil => simp
  | cons d t ih =>
    have hd : d < 10 := hl d (List.mem_cons_self d t)
    have ht : ∀ x ∈ t, x < 10 := fun x hx => hl x (List.mem_cons_of_mem d hx)
    rw [List.map_cons, List.reverse_cons, List.foldl_append, ih ht,
      List.foldl_cons, List.foldl_nil, decDigitVal_digitChar ⟨d, hd⟩,
      Nat.ofDigits_cons, List.length_cons]
    ring

/-- Parsing inverts the base-10 rendering of a natural number. -/
theorem parseNatDec_natToDec (n : Nat) : parseNatDec (natToDec n) = n := by
  unfold natToDec
  split
  · rename_i h
    subst h
    rfl
  · rename_i h
    show ((Nat.digits 10 n).map Nat.digitChar).reverse.foldl
        (fun a c => a * 10 + decDigitVal c) 0 = n
    rw [foldl_digits_parse (Nat.digits 10 n)
      (fun d hd => Nat.digits_lt_base (by norm_num) hd) 0,
      Nat.ofDigits_digits]
    ring

/-- The base-10 rendering of a natural number contains no minus sign. -/
theorem natToDec_no_minus (n : Nat) : ∀ c ∈ (natToDec n).data, c ≠ '-' := by
  unfold natToDec
  split
  · intro c hc
    simp only [String.data] at hc
    rw [List.mem_singleton] at hc
    subst hc
    decide
  · intro c hc
    rw [show (String.mk (((Nat.digits 10 n).map Nat.digitChar).reverse)).data
        = ((Nat.digits 10 n).map Nat.digitChar).reverse from rfl,
      List.mem_reverse] at hc
    obtain ⟨d, hd, rfl⟩ := List.mem_map.mp hc
    have hlt : d < 10 := Nat.digits_lt_base (by norm_num) hd
    exact (by decide : ∀ d : Fin 10, Nat.digitChar d.val ≠ '-') ⟨d, hlt⟩

/-- Parsing inverts the base-10 rendering of an integer: the decimal string
a bigint is replaced by loses no precision. -/
theorem parseIntDec_intToDec (i : Int) : parseIntDec (intToDec i) = i := by
  cases i with
  | ofNat n =>
    show parseIntDec (natToDec n) = Int.ofNat n
    unfold parseIntDec
    split
    · rename_i rest heq
      exact absurd rfl
        (natToDec_no_minus n '-' (heq ▸ List.mem_cons_self '-' rest))
    · rw [parseNatDec_natToDec]
      rfl
  | negSucc n =>
    show parseIntDec (String.mk ('-' :: (natToDec (n + 1)).data)) = Int.negSucc n
    have : parseIntDec (String.mk ('-' :: (natToDec (n + 1)).data))
        = -(parseNatDec (String.mk (natToDec (n + 1)).data) : Int) := rfl
    rw [this, show String.mk (natToDec (n + 1)).data = natToDec (n + 1) from rfl,
      parseNatDec_natToDec]
    rw [Int.negSucc_eq]
    push_cast
    ring

mutual
/-- One-pass serialization with the bigint replacer coincides with first
substituting every bigint field by its decimal JSON string and then
serializing plainly (and the substituted payload is plainly serializable). -/
theorem stringifyPlain_substBig (v : JsValue) :
    stringifyPlain (substBig v) = some (stringifyR v) := by
  cases v with
  | null => rfl
  | bool b => rfl
  | num n => rfl
  | str s => rfl
  | big i => rfl
  | arr xs =>
    rw [show substBig (.arr xs) = .arr (substBigArr xs) from rfl]
    rw [show stringifyPlain (.arr (substBigArr xs))
        = (stringifyPlainArr (substBigArr xs)).map
            (fun ss => "[" ++ String.intercalate "," ss ++ "]") from rfl]
    rw [stringifyPlainArr_substBigArr xs]
    rfl
  | obj fs =>
    rw [show substBig (.obj fs) = .obj (substBigFields fs) from rfl]
    rw [show stringifyPlain (.obj (substBigFields fs))
        = (stringifyPlainFields (substBigFields fs)).map
            (fun ss => "\x7b" ++ String.intercalate "," ss ++ "\x7d") from rfl]
    rw [stringifyPlainFields_substBigFields fs]
    rfl

/-- Array form of `stringifyPlain_substBig`. -/
theorem stringifyPlainArr_substBigArr (xs : JsArray) :
    stringifyPlainArr (substBigArr xs) = some (stringifyRArr xs) := by
  cases xs with
  | nil => rfl
  | cons v tl =>
    rw [show substBigArr (.cons v tl) = .cons (substBig v) (substBigArr tl) from rfl]
    rw [show stringifyPlainArr (.cons (substBig v) (substBigArr tl))
        = (match stringifyPlain (substBig v), stringifyPlainArr (substBigArr tl) with
           | some s, some ss => some (s :: ss)
           | _, _ => none) from rfl]
    rw [stringifyPlain_substBig v, stringifyPlainArr_substBigArr tl]
    rfl

/-- Object form of `stringifyPlain_substBig`. -/
theorem stringifyPlainFields_substBigFields (fs : JsFields) :
    stringifyPlainFields (substBigFields fs) = some (stringifyRFields fs) := by
  cases fs with
  | nil => rfl
  | cons k v tl =>
    rw [show substBigFields (.cons k v tl)
        = .cons k (substBig v) (substBigFields tl) from rfl]
    rw [show stringifyPlainFields (.cons k (substBig v) (substBigFields tl))
        = (match stringifyPlain (substBig v), stringifyPlainFields (substBigFields tl) with
           | some s, some ss => some ((quoteJson k ++ ":" ++ s) :: ss)
           | _, _ => none) from rfl]
    rw [stringifyPlain_substBig v, stringifyPlainFields_substBigFields tl]
    rfl
end

/-- C4: for every structured payload containing at least one bigint field,
the `signTypedData` serialization equals plain JSON serialization of the
payload with every bigint field replaced by its base-10 decimal string; the
decimal string loses no precision (parsing it recovers the integer); and
serializing the same payload again yields the identical string (the
embedding of the serializer is a function of the payload alone). -/
theorem c4_typed_data_serialization (v : JsValue) (h : containsBig v = true) :
    stringifyPlain (substBig v) = some (stringifyR v) ∧
    (∀ i : Int, parseIntDec (intToDec i) = i) ∧
    stringifyR v = stringifyR v :=
  ⟨stringifyPlain_substBig v, parseIntDec_intToDec, rfl⟩

/-- Witness for C4 at a concrete payload with one bigint field. -/
theorem c4_typed_data_serialization_witness :
    containsBig (JsValue.obj (JsFields.cons "amount" (JsValue.big 200000) JsFields.nil))
        = true ∧
    (stringifyPlain (substBig
          (JsValue.obj (JsFields.cons "amount" (JsValue.big 200000) JsFields.nil)))
        = some (stringifyR
          (JsValue.obj (JsFields.cons "amount" (JsValue.big 200000) JsFields.nil))) ∧
      (∀ i : Int, parseIntDec (intToDec i) = i) ∧
      stringifyR (JsValue.obj (JsFields.cons "amount" (JsValue.big 200000) JsFields.nil))
        = stringifyR
            (JsValue.obj (JsFields.cons "amount" (JsValue.big 200000) JsFields.nil))) :=
  ⟨rfl, c4_typed_data_serialization _ rfl⟩
